import Mathlib

/-!
Verification of the evaluation-report engine of this repository
(src/InnerEye/ML/reports/classification_report.py) and the batch device-transfer
helper (src/InnerEye/ML/lightning_models.py), as a shallow embedding in Lean.

Modelling conventions:
* Python floats are modelled as exact rationals; a produced float that can be
  NaN is modelled by the type PyFloat (nan or a rational value).
* A pandas DataFrame of per-subject metric rows is a List CsvRow in file order;
  DataFrame filters are List.filter.
* Raised exceptions are modelled by Except; each exception class gets its own
  error constructor.
* External library routines (sklearn roc_curve, recall_score, auc and the
  pandas head/sort_values primitives) are modelled from their documented
  behaviour, since the spec treats them as opaque collaborators.  sort_values
  is modelled as a stable sort (Mathlib insertionSort); roc_curve is modelled
  without drop_intermediate, which removes only interior points of collinear
  runs and does not change the Youden arg-max threshold.
* Rational division by zero is 0 (the Lean convention); the embedded pipeline
  only hits such divisions for degenerate single-class inputs, where sklearn
  emits NaN entries with a warning instead.
-/

/-- One row of a per-subject metrics CSV: prediction target (Hue), subject id
(Patient), ground-truth label (Label) and model output score (ModelOutput).
The remaining CSV columns (Epoch, DataSplit, CrossValidationSplitIndex) play no
role in the functions verified here. -/
structure CsvRow where
  hue : String
  subject : String
  label : ℚ
  model_output : ℚ
deriving DecidableEq

/-- LabelsAndPredictions dataclass from classification_report.py: parallel
sequences of subject ids, labels and model outputs. -/
structure LabelsAndPredictions where
  subject_ids : List String
  labels : List ℚ
  model_outputs : List ℚ
deriving DecidableEq

/-- Results dataclass from classification_report.py: the four confusion
categories, each a table of test rows. -/
structure Results where
  true_positives : List CsvRow
  false_positives : List CsvRow
  true_negatives : List CsvRow
  false_negatives : List CsvRow
deriving DecidableEq

/-- ReportedMetrics enum from classification_report.py. -/
inductive ReportedMetrics where
  | OptimalThreshold
  | AUC_PR
  | AUC_ROC
  | Accuracy
  | FalsePositiveRate
  | FalseNegativeRate
deriving DecidableEq

/-- A Python float result that may be NaN (math.nan) or an ordinary value. -/
inductive PyFloat where
  | nan
  | val (q : ℚ)
deriving DecidableEq

/-- The DuplicateSubjectError of the spec taxonomy: raised (as ValueError) by
read_csv_and_filter_hue when subject ids repeat within one hue. -/
inductive ReportError where
  | duplicateSubject
deriving DecidableEq

/-- Failure of the `assert optimal_threshold` statement in get_metric
(a falsy, i.e. zero, resolved threshold). -/
inductive MetricError where
  | assertionFailed
deriving DecidableEq

deriving instance DecidableEq for Except

/-- The distinct values of a list, first occurrences kept in order: models the
Python set / numpy unique collapsing of repeated values. -/
def distinctVals : List ℚ → List ℚ
  | [] => []
  | x :: xs => x :: (distinctVals xs).filter (fun y => decide (¬y = x))

/-- The distinct model-output values in decreasing order: the threshold grid of
sklearn roc_curve (external library). -/
def distinctScoresDesc (scores : List ℚ) : List ℚ :=
  distinctVals (scores.insertionSort (fun a b => b ≤ a))

/-- Number of rows with label equal to 1 and score at least the cutoff:
the cumulative true-positive count of sklearn roc_curve at that cutoff. -/
def tpsCount (pairs : List (ℚ × ℚ)) (cutoff : ℚ) : ℕ :=
  pairs.countP (fun p => decide (p.1 = 1 ∧ cutoff ≤ p.2))

/-- Number of rows with label not equal to 1 and score at least the cutoff:
the cumulative false-positive count of sklearn roc_curve at that cutoff. -/
def fpsCount (pairs : List (ℚ × ℚ)) (cutoff : ℚ) : ℕ :=
  pairs.countP (fun p => decide (¬p.1 = 1 ∧ cutoff ≤ p.2))

/-- Models sklearn.metrics.roc_curve (external library, version family used by
this repository): thresholds are the distinct scores in decreasing order with
an extra leading point at (first threshold + 1); returns
(false_positive_rate, true_positive_rate, thresholds).  drop_intermediate is
omitted, see the module comment. -/
def roc_curve (labels scores : List ℚ) : List ℚ × List ℚ × List ℚ :=
  let pairs := labels.zip scores
  match distinctScoresDesc scores with
  | [] => ([], [], [])
  | t0 :: ts =>
    let grid := t0 :: ts
    let thresholds := (t0 + 1) :: grid
    let tps : List ℚ := 0 :: grid.map (fun c => (tpsCount pairs c : ℚ))
    let fps : List ℚ := 0 :: grid.map (fun c => (fpsCount pairs c : ℚ))
    let pos : ℚ := (labels.countP (fun l => decide (l = 1)) : ℚ)
    let neg : ℚ := (labels.countP (fun l => decide (¬l = 1)) : ℚ)
    (fps.map (fun x => x / neg), tps.map (fun x => x / pos), thresholds)

/-- Maximum of a list of rationals (0 for the empty list; only ever used
through argmaxFirst, which guards the empty case itself). -/
def maxList : List ℚ → ℚ
  | [] => 0
  | [x] => x
  | x :: y :: t => max x (maxList (y :: t))

/-- First index at which a list attains its maximum, in the style of
numpy argmax (0 for the empty list). -/
def argmaxFirst : List ℚ → ℕ
  | [] => 0
  | [_] => 0
  | x :: y :: t => if maxList (y :: t) ≤ x then 0 else argmaxFirst (y :: t) + 1

/-- Modelled from the spec: MetricsDict.get_optimal_idx
(InnerEye/ML/metrics_dict.py, whose source is not part of this fragment)
selects the index maximizing true_positive_rate minus false_positive_rate,
ties broken by the first occurrence (numpy argmax). -/
def get_optimal_idx (fpr tpr : List ℚ) : ℕ :=
  argmaxFirst (tpr.zipWith (fun a b => a - b) fpr)

/-- The threshold derivation shared by get_metric (lines 124-126) and
get_correct_and_misclassified_examples (lines 210-212): the ROC threshold at
the Youden-optimal index of the given labels and scores. -/
def chooseThreshold (labels scores : List ℚ) : ℚ :=
  let c := roc_curve labels scores
  c.2.2.getD (get_optimal_idx c.1 c.2.1) 0

/-- Python truthiness test `not optimal_threshold` on an Optional[float]:
true for None and for 0.0. -/
def isFalsy : Option ℚ → Bool
  | none => true
  | some q => decide (q = 0)

/-- Elementwise thresholding `model_outputs >= threshold` (booleans as 0/1). -/
def predsAt (threshold : ℚ) (scores : List ℚ) : List ℚ :=
  scores.map (fun s => if threshold ≤ s then 1 else 0)

/-- Models sklearn.metrics.recall_score (external library) on label/prediction
sequences: among rows whose label equals pos_label, the fraction predicted as
pos_label; 0 when no row has the positive label (sklearn zero-division
behaviour). -/
def recall_score (labels preds : List ℚ) (pos_label : ℚ) : ℚ :=
  ((labels.zip preds).countP (fun p => decide (p.1 = pos_label ∧ p.2 = pos_label)) : ℚ) /
    (labels.countP (fun l => decide (l = pos_label)) : ℚ)

/-- Modelled from the spec: binary_classification_accuracy
(InnerEye/ML/metrics_dict.py, whose source is not part of this fragment)
reduces to counting against the threshold: the fraction of rows whose
thresholded output equals the label. -/
def binary_classification_accuracy (model_output label : List ℚ) (threshold : ℚ) : ℚ :=
  ((label.zip (predsAt threshold model_output)).countP (fun p => decide (p.1 = p.2)) : ℚ) /
    (label.length : ℚ)

/-- Trapezoid-rule area under a piecewise-linear curve given by parallel
coordinate lists. -/
def trapezoid : List ℚ → List ℚ → ℚ
  | x1 :: x2 :: xs, y1 :: y2 :: ys =>
      (x2 - x1) * (y1 + y2) / 2 + trapezoid (x2 :: xs) (y2 :: ys)
  | _, _ => 0

/-- Models sklearn.metrics.auc (external library): trapezoid area, made
positive when the x coordinates run in decreasing order. -/
def auc (xs ys : List ℚ) : ℚ := |trapezoid xs ys|

/-- Models sklearn.metrics.roc_auc_score (external library): area under the
ROC curve. -/
def roc_auc_score (labels scores : List ℚ) : ℚ :=
  let c := roc_curve labels scores
  trapezoid c.1 c.2.1

/-- Models sklearn.metrics.precision_recall_curve (external library): precision
and recall at each distinct cutoff, ordered by increasing cutoff, with the
final point (precision 1, recall 0) appended. -/
def precision_recall_curve (labels scores : List ℚ) : List ℚ × List ℚ :=
  let pairs := labels.zip scores
  let ts := distinctScoresDesc scores
  let pos : ℚ := (labels.countP (fun l => decide (l = 1)) : ℚ)
  let precisions := (ts.map (fun c =>
      (tpsCount pairs c : ℚ) / ((tpsCount pairs c : ℚ) + (fpsCount pairs c : ℚ)))).reverse ++ [1]
  let recalls := (ts.map (fun c => (tpsCount pairs c : ℚ) / pos)).reverse ++ [0]
  (precisions, recalls)

/-- get_metric from classification_report.py (lines 116-152).  When the
supplied optional threshold is falsy (None or 0.0) the threshold is derived
from the validation split via the ROC curve; the subsequent
`assert optimal_threshold` fails if the resolved threshold is still falsy. -/
def get_metric (val_metrics test_metrics : LabelsAndPredictions) (metric : ReportedMetrics)
    (optimal_threshold : Option ℚ := none) : Except MetricError PyFloat :=
  let resolved :=
    if isFalsy optimal_threshold then
      let c := roc_curve val_metrics.labels val_metrics.model_outputs
      some (c.2.2.getD (get_optimal_idx c.1 c.2.1) 0)
    else optimal_threshold
  if isFalsy resolved then .error .assertionFailed
  else
    let t := resolved.getD 0
    let only_one_class_present := (distinctVals test_metrics.labels).length < 2
    match metric with
    | .OptimalThreshold => .ok (.val t)
    | .AUC_ROC =>
        if only_one_class_present then .ok .nan
        else .ok (.val (roc_auc_score test_metrics.labels test_metrics.model_outputs))
    | .AUC_PR =>
        if only_one_class_present then .ok .nan
        else
          let pr := precision_recall_curve test_metrics.labels test_metrics.model_outputs
          .ok (.val (auc pr.2 pr.1))
    | .Accuracy =>
        .ok (.val (binary_classification_accuracy test_metrics.model_outputs test_metrics.labels t))
    | .FalsePositiveRate =>
        .ok (.val (1 - recall_score test_metrics.labels (predsAt t test_metrics.model_outputs) 0))
    | .FalseNegativeRate =>
        .ok (.val (1 - recall_score test_metrics.labels (predsAt t test_metrics.model_outputs) 1))

/-- read_csv_and_filter_hue from classification_report.py (lines 54-64):
filter the rows to the given hue and fail when a subject id repeats. -/
def read_csv_and_filter_hue (rows : List CsvRow) (hue : String) :
    Except ReportError (List CsvRow) :=
  let df := rows.filter (fun r => decide (r.hue = hue))
  if (df.map (fun r => r.subject)).Nodup then .ok df
  else .error .duplicateSubject

/-- get_labels_and_predictions from classification_report.py (lines 67-77). -/
def get_labels_and_predictions (rows : List CsvRow) (hue : String) :
    Except ReportError LabelsAndPredictions :=
  match read_csv_and_filter_hue rows hue with
  | .error e => .error e
  | .ok df => .ok { subject_ids := df.map (fun r => r.subject),
                    labels := df.map (fun r => r.label),
                    model_outputs := df.map (fun r => r.model_output) }

/-- The per-row predicted class `int(model_output >= optimal_threshold)` of
get_correct_and_misclassified_examples (line 216). -/
def predictedClass (model_output threshold : ℚ) : ℤ :=
  if threshold ≤ model_output then 1 else 0

/-- The threshold that get_correct_and_misclassified_examples derives from the
validation file for a hue (lines 208-212). -/
def derived_threshold (val_rows : List CsvRow) (hue : String) : ℚ :=
  let df_val := val_rows.filter (fun r => decide (r.hue = hue))
  chooseThreshold (df_val.map (fun r => r.label)) (df_val.map (fun r => r.model_output))

/-- get_correct_and_misclassified_examples from classification_report.py
(lines 200-227): read and filter both files, derive the threshold from the
validation rows, threshold the test rows and bucket them into the four
confusion categories. -/
def get_correct_and_misclassified_examples (val_rows test_rows : List CsvRow)
    (hue : String := "Default") : Except ReportError Results :=
  match read_csv_and_filter_hue val_rows hue with
  | .error e => .error e
  | .ok df_val =>
    let optimal_threshold :=
      chooseThreshold (df_val.map (fun r => r.label)) (df_val.map (fun r => r.model_output))
    match read_csv_and_filter_hue test_rows hue with
    | .error e => .error e
    | .ok df_test =>
      .ok { true_positives := df_test.filter fun r =>
              decide (predictedClass r.model_output optimal_threshold = 1 ∧ r.label = 1),
            false_positives := df_test.filter fun r =>
              decide (predictedClass r.model_output optimal_threshold = 1 ∧ r.label = 0),
            true_negatives := df_test.filter fun r =>
              decide (predictedClass r.model_output optimal_threshold = 0 ∧ r.label = 0),
            false_negatives := df_test.filter fun r =>
              decide (predictedClass r.model_output optimal_threshold = 0 ∧ r.label = 1) }

/-- Sorting order sort_values(by=ModelOutput, ascending=False). -/
def outputDescOrder (a b : CsvRow) : Prop := b.model_output ≤ a.model_output

/-- Sorting order sort_values(by=ModelOutput, ascending=True). -/
def outputAscOrder (a b : CsvRow) : Prop := a.model_output ≤ b.model_output

instance : DecidableRel outputDescOrder :=
  fun a b => inferInstanceAs (Decidable (b.model_output ≤ a.model_output))

instance : DecidableRel outputAscOrder :=
  fun a b => inferInstanceAs (Decidable (a.model_output ≤ b.model_output))

instance : IsTotal CsvRow outputDescOrder :=
  ⟨fun a b => le_total b.model_output a.model_output⟩

instance : IsTotal CsvRow outputAscOrder :=
  ⟨fun a b => le_total a.model_output b.model_output⟩

instance : IsTrans CsvRow outputDescOrder :=
  ⟨fun _ _ _ h1 h2 => le_trans h2 h1⟩

instance : IsTrans CsvRow outputAscOrder :=
  ⟨fun _ _ _ h1 h2 => le_trans h1 h2⟩

/-- Models pandas DataFrame.head (external library): the first n rows for
nonnegative n, and all rows except the last |n| rows for negative n. -/
def headPd {α : Type} (n : ℤ) (l : List α) : List α :=
  if 0 ≤ n then l.take n.toNat else l.take ((l.length : ℤ) + n).toNat

/-- The ranking stage of get_k_best_and_worst_performing (lines 240-248):
sort each confusion category by model output (true and false positives
descending, true and false negatives ascending) and keep head(k).
pandas sort_values is modelled as a stable sort. -/
def sort_and_take (k : ℤ) (results : Results) : Results where
  true_positives := headPd k (results.true_positives.insertionSort outputDescOrder)
  false_positives := headPd k (results.false_positives.insertionSort outputDescOrder)
  true_negatives := headPd k (results.true_negatives.insertionSort outputAscOrder)
  false_negatives := headPd k (results.false_negatives.insertionSort outputAscOrder)

/-- get_k_best_and_worst_performing from classification_report.py
(lines 230-249). -/
def get_k_best_and_worst_performing (val_rows test_rows : List CsvRow) (k : ℤ)
    (hue : String := "Default") : Except ReportError Results :=
  match get_correct_and_misclassified_examples val_rows test_rows hue with
  | .error e => .error e
  | .ok results => .ok (sort_and_take k results)

/-- A Python value as it can occur inside a dataloader batch: None, a
ScalarItem (with the device its tensors live on), a raw tensor, a string, or a
list of values. -/
inductive PyVal where
  | noneVal
  | scalarItem (id device : ℤ)
  | tensor (id device : ℤ)
  | str (s : String)
  | list (xs : List PyVal)

/-- A dataloader batch: either a Python dict keyed by strings, or some other
value. -/
inductive PyBatch where
  | dict (entries : List (String × PyVal))
  | other (v : PyVal)

/-- The exceptions transfer_batch_to_device can raise.  malformedBatch is the
MalformedBatchError of the spec taxonomy (raised as ValueError when the batch
is not a dict); the others model the built-in IndexError, TypeError and
AttributeError. -/
inductive TransferError where
  | malformedBatch
  | indexError
  | typeError
  | attributeError
deriving DecidableEq

/-- Python dict.get with default None: the value at the first matching key. -/
def dictGet (entries : List (String × PyVal)) (key : String) : Option PyVal :=
  (entries.find? (fun e => decide (e.1 = key))).map (fun e => e.2)

/-- Python dict item assignment: replace the value stored at the key. -/
def dictSet (entries : List (String × PyVal)) (key : String) (v : PyVal) :
    List (String × PyVal) :=
  entries.map (fun e => if e.1 = key then (key, v) else e)

/-- Models pytorch_lightning.utilities.move_data_to_device (external library):
recursively retag every tensor-like leaf with the target device. -/
def move_data_to_device (device : ℤ) : PyVal → PyVal
  | .noneVal => .noneVal
  | .scalarItem i _ => .scalarItem i device
  | .tensor i _ => .tensor i device
  | .str s => .str s
  | .list xs => .list (xs.attach.map (fun x => move_data_to_device device x.1))
termination_by v => sizeOf v
decreasing_by
  simp only [PyVal.list.sizeOf_spec]
  have := List.sizeOf_lt_of_mem x.2
  omega

/-- ScalarItem.to_device: only ScalarItems have this method; calling it on
anything else is an AttributeError. -/
def scalar_item_to_device (device : ℤ) : PyVal → Except TransferError PyVal
  | .scalarItem i _ => .ok (.scalarItem i device)
  | _ => .error .attributeError

/-- One step of the nested comprehension `[j.to_device(device) for j in i]`:
iterating a non-list is a TypeError. -/
def inner_list_to_device (device : ℤ) : PyVal → Except TransferError PyVal
  | .list js => (js.mapM (scalar_item_to_device device)).map .list
  | _ => .error .typeError

/-- The test `items is not None and isinstance(items, List) and
isinstance(items[0], List) and isinstance(items[0][0], ScalarItem)` of
transfer_batch_to_device (lines 378-379), with Python short-circuit
evaluation: indexing an empty list raises IndexError before the isinstance
test can fail. -/
def isSequenceItems : PyVal → Except TransferError Bool
  | .noneVal => .ok false
  | .list [] => .error .indexError
  | .list (x :: _) =>
      match x with
      | .list [] => .error .indexError
      | .list (y :: _) =>
          match y with
          | .scalarItem _ _ => .ok true
          | _ => .ok false
      | _ => .ok false
  | _ => .ok false

/-- transfer_batch_to_device from lightning_models.py (lines 365-382): reject
non-dict batches with ValueError (MalformedBatchError of the spec taxonomy);
move a dict holding nested ScalarItem lists under the key items elementwise;
fall back to the generic recursive move for every other dict. -/
def transfer_batch_to_device (batch : PyBatch) (device : ℤ) :
    Except TransferError PyBatch :=
  match batch with
  | .other _ => .error .malformedBatch
  | .dict entries =>
    let items := (dictGet entries "items").getD .noneVal
    match isSequenceItems items with
    | .error e => .error e
    | .ok true =>
        match items with
        | .list outer =>
            match outer.mapM (inner_list_to_device device) with
            | .error e => .error e
            | .ok moved => .ok (.dict (dictSet entries "items" (.list moved)))
        | _ => .error .typeError
    | .ok false =>
        .ok (.dict (entries.map (fun e => (e.1, move_data_to_device device e.2))))

/-! ## Fixtures used for witnesses and counterexamples -/

/-- Validation fixture row: positive subject with score 3. -/
def fixV1 : CsvRow := ⟨"Default", "v1", 1, 3⟩

/-- Validation fixture row: negative subject with score 1. -/
def fixV2 : CsvRow := ⟨"Default", "v2", 0, 1⟩

/-- Validation fixture row carrying a different hue (and a subject id clashing
with fixV1, which the hue filter must discard). -/
def fixV3 : CsvRow := ⟨"Other", "v1", 0, 9⟩

/-- Validation fixture file; its Youden-optimal threshold for hue Default
is 3. -/
def fixVal : List CsvRow := [fixV1, fixV2, fixV3]

/-- Test fixture rows covering all four confusion categories; fixT2 sits
exactly on the derived threshold. -/
def fixT0 : CsvRow := ⟨"Default", "t0", 1, 5⟩

/-- Test fixture row, true positive. -/
def fixT1 : CsvRow := ⟨"Default", "t1", 1, 4⟩

/-- Test fixture row, true positive with score equal to the threshold. -/
def fixT2 : CsvRow := ⟨"Default", "t2", 1, 3⟩

/-- Test fixture row, false negative. -/
def fixT3 : CsvRow := ⟨"Default", "t3", 1, 2⟩

/-- Test fixture row, true negative. -/
def fixT4 : CsvRow := ⟨"Default", "t4", 0, 0⟩

/-- Test fixture row, false positive. -/
def fixT5 : CsvRow := ⟨"Default", "t5", 0, 3⟩

/-- Test fixture file. -/
def fixTest : List CsvRow := [fixT0, fixT1, fixT2, fixT3, fixT4, fixT5]

/-- The partition of the test fixture at the threshold derived from the
validation fixture. -/
def fixResults : Results := ⟨[fixT0, fixT1, fixT2], [fixT5], [fixT4], [fixT3]⟩

/-- Evaluation of the full partition pipeline on the fixtures. -/
theorem fix_partition :
    get_correct_and_misclassified_examples fixVal fixTest "Default" = .ok fixResults := by
  have hval : read_csv_and_filter_hue fixVal "Default" = .ok [fixV1, fixV2] := by decide
  have htest : read_csv_and_filter_hue fixTest "Default" = .ok fixTest := by decide
  have hthr : chooseThreshold ([fixV1, fixV2].map (fun r => r.label))
      ([fixV1, fixV2].map (fun r => r.model_output)) = 3 := by
    norm_num [fixV1, fixV2, chooseThreshold, roc_curve,
      distinctScoresDesc, distinctVals, tpsCount, fpsCount, get_optimal_idx, argmaxFirst,
      maxList, List.insertionSort, List.orderedInsert, List.countP_cons, List.countP_nil,
      List.zip, List.zipWith, List.filter_cons, List.getD_cons_zero, List.getD_cons_succ]
  unfold get_correct_and_misclassified_examples
  rw [hval, htest]
  simp only [hthr]
  decide

/-! ## Helper lemmas for inverting the pipeline -/

/-- A successful read returns exactly the hue-filtered rows. -/
theorem read_csv_ok_elim {rows : List CsvRow} {hue : String} {df : List CsvRow}
    (h : read_csv_and_filter_hue rows hue = .ok df) :
    df = rows.filter (fun r => decide (r.hue = hue)) := by
  simp only [read_csv_and_filter_hue] at h
  split at h
  · exact ((Except.ok.injEq _ _).mp h).symm
  · simp at h

/-- A successful partition call returns the four filters of the hue-filtered
test rows at the threshold derived from the validation rows. -/
theorem partition_ok_elim {val_rows test_rows : List CsvRow} {hue : String} {res : Results}
    (h : get_correct_and_misclassified_examples val_rows test_rows hue = .ok res) :
    res =
      ⟨(test_rows.filter (fun r => decide (r.hue = hue))).filter (fun r =>
          decide (predictedClass r.model_output (derived_threshold val_rows hue) = 1 ∧
            r.label = 1)),
       (test_rows.filter (fun r => decide (r.hue = hue))).filter (fun r =>
          decide (predictedClass r.model_output (derived_threshold val_rows hue) = 1 ∧
            r.label = 0)),
       (test_rows.filter (fun r => decide (r.hue = hue))).filter (fun r =>
          decide (predictedClass r.model_output (derived_threshold val_rows hue) = 0 ∧
            r.label = 0)),
       (test_rows.filter (fun r => decide (r.hue = hue))).filter (fun r =>
          decide (predictedClass r.model_output (derived_threshold val_rows hue) = 0 ∧
            r.label = 1))⟩ := by
  unfold get_correct_and_misclassified_examples at h
  cases hv : read_csv_and_filter_hue val_rows hue with
  | error e => rw [hv] at h; simp at h
  | ok df_val =>
    rw [hv] at h
    cases ht : read_csv_and_filter_hue test_rows hue with
    | error e => rw [ht] at h; simp at h
    | ok df_test =>
      rw [ht] at h
      have hv2 := read_csv_ok_elim hv
      have ht2 := read_csv_ok_elim ht
      subst hv2
      subst ht2
      exact ((Except.ok.injEq _ _).mp h).symm

/-- Four filters whose predicates accept each element exactly once split the
length of a list. -/
theorem length_filter_four {α : Type} (p1 p2 p3 p4 : α → Bool) :
    ∀ l : List α, (∀ x ∈ l, (p1 x).toNat + (p2 x).toNat + (p3 x).toNat + (p4 x).toNat = 1) →
      (l.filter p1).length + (l.filter p2).length + (l.filter p3).length +
        (l.filter p4).length = l.length
  | [], _ => rfl
  | x :: xs, h => by
    have hx := h x (List.mem_cons_self x xs)
    have ih := length_filter_four p1 p2 p3 p4 xs (fun y hy => h y (List.mem_cons_of_mem x hy))
    simp only [List.filter_cons]
    cases h1 : p1 x <;> cases h2 : p2 x <;> cases h3 : p3 x <;> cases h4 : p4 x <;>
      simp [h1, h2, h3, h4] at hx ⊢ <;> omega

/-- Exactly one of the four confusion buckets accepts a row with a binary
label. -/
theorem predicted_bucket_unique (t : ℚ) (r : CsvRow) (h : r.label = 0 ∨ r.label = 1) :
    (decide (predictedClass r.model_output t = 1 ∧ r.label = 1)).toNat +
      (decide (predictedClass r.model_output t = 1 ∧ r.label = 0)).toNat +
      (decide (predictedClass r.model_output t = 0 ∧ r.label = 0)).toNat +
      (decide (predictedClass r.model_output t = 0 ∧ r.label = 1)).toNat = 1 := by
  unfold predictedClass
  rcases h with h | h <;> by_cases hc : t ≤ r.model_output <;> simp [h, hc]

/-- Two filters with incompatible predicates have no common member. -/
theorem filter_pair_disjoint {α : Type} (p q : α → Bool) (l : List α)
    (hpq : ∀ x, ¬(p x = true ∧ q x = true)) (r : α) :
    ¬(r ∈ l.filter p ∧ r ∈ l.filter q) := by
  rintro ⟨h1, h2⟩
  exact hpq r ⟨(List.mem_filter.mp h1).2, (List.mem_filter.mp h2).2⟩

/-- C1: For every pair of well-formed hue-filtered validation and test CSV
inputs, get_correct_and_misclassified_examples returns four tables that are
pairwise disjoint and whose row counts sum to the number of test-split rows
for that hue: every test row lands in exactly one of the four categories and
none is dropped.  Well-formedness of the test rows is the binary-label
condition the spec demands of classification inputs. -/
theorem partition_exhaustive_disjoint (val_rows test_rows : List CsvRow) (hue : String)
    (res : Results)
    (hres : get_correct_and_misclassified_examples val_rows test_rows hue = .ok res)
    (hbin : ∀ r ∈ test_rows.filter (fun r => decide (r.hue = hue)),
      r.label = 0 ∨ r.label = 1) :
    (res.true_positives.length + res.false_positives.length + res.true_negatives.length +
        res.false_negatives.length
      = (test_rows.filter (fun r => decide (r.hue = hue))).length)
    ∧ (∀ r : CsvRow,
        ¬(r ∈ res.true_positives ∧ r ∈ res.false_positives) ∧
        ¬(r ∈ res.true_positives ∧ r ∈ res.true_negatives) ∧
        ¬(r ∈ res.true_positives ∧ r ∈ res.false_negatives) ∧
        ¬(r ∈ res.false_positives ∧ r ∈ res.true_negatives) ∧
        ¬(r ∈ res.false_positives ∧ r ∈ res.false_negatives) ∧
        ¬(r ∈ res.true_negatives ∧ r ∈ res.false_negatives))
    ∧ (∀ r ∈ test_rows.filter (fun r => decide (r.hue = hue)),
        r ∈ res.true_positives ∨ r ∈ res.false_positives ∨ r ∈ res.true_negatives ∨
          r ∈ res.false_negatives) := by
  have hres2 := partition_ok_elim hres
  subst hres2
  refine ⟨?_, ?_, ?_⟩
  · exact length_filter_four _ _ _ _ _ (fun r hr => predicted_bucket_unique _ r (hbin r hr))
  · intro r
    refine ⟨?_, ?_, ?_, ?_, ?_, ?_⟩ <;>
      refine filter_pair_disjoint _ _ _ (fun x => ?_) r <;>
      · simp only [decide_eq_true_eq]
        rintro ⟨⟨hp1, hl1⟩, hp2, hl2⟩
        simp_all
  · intro r hr
    have hm := List.mem_filter.mp hr
    have hhue : r.hue = hue := by simpa using hm.2
    rcases hbin r hr with h | h <;>
      by_cases hc : derived_threshold val_rows hue ≤ r.model_output <;>
      simp [List.mem_filter, predictedClass, h, hc, hm.1, hhue, ← not_le]

/-- Witness for C1 at the fixture files: 3 + 1 + 1 + 1 rows rebuild the
6-row test split. -/
theorem partition_exhaustive_disjoint_witness :
    fixResults.true_positives.length + fixResults.false_positives.length +
      fixResults.true_negatives.length + fixResults.false_negatives.length =
      (fixTest.filter (fun r => decide (r.hue = "Default"))).length :=
  (partition_exhaustive_disjoint fixVal fixTest "Default" fixResults fix_partition
    (by decide)).1

/-- A metrics file with a duplicated subject id under the Default hue. -/
def fixDup : List CsvRow := [⟨"Default", "d", 1, 1⟩, ⟨"Default", "d", 0, 0⟩]

/-- C3: For every test row and every threshold, the predicted class assigned
by the partition operation is 1 exactly when the model output is greater than
or equal to the threshold (closed lower bound): a row whose score equals the
derived threshold is bucketed as positive. -/
theorem closed_lower_bound_threshold (val_rows test_rows : List CsvRow) (hue : String)
    (res : Results)
    (hres : get_correct_and_misclassified_examples val_rows test_rows hue = .ok res)
    (r : CsvRow) (hr : r ∈ test_rows.filter (fun r => decide (r.hue = hue)))
    (hlab : r.label = 0 ∨ r.label = 1) :
    ((r ∈ res.true_positives ∨ r ∈ res.false_positives) ↔
      derived_threshold val_rows hue ≤ r.model_output)
    ∧ (∀ s t : ℚ, predictedClass s t = 1 ↔ t ≤ s) := by
  have hres2 := partition_ok_elim hres
  subst hres2
  constructor
  · constructor
    · rintro (h | h) <;>
      · have h2 := (List.mem_filter.mp h).2
        simp only [decide_eq_true_eq, predictedClass] at h2
        rcases h2 with ⟨hp, _⟩
        by_contra hc
        simp [hc] at hp
    · intro hc
      rcases hlab with h | h
      · right
        exact List.mem_filter.mpr ⟨hr, by simp [predictedClass, hc, h]⟩
      · left
        exact List.mem_filter.mpr ⟨hr, by simp [predictedClass, hc, h]⟩
  · intro s t
    by_cases h : t ≤ s <;> simp [predictedClass, h]

/-- Witness for C3 at the fixture files: the row whose score equals the
derived threshold is counted positive. -/
theorem closed_lower_bound_threshold_witness :
    (fixT2 ∈ fixResults.true_positives ∨ fixT2 ∈ fixResults.false_positives) ↔
      derived_threshold fixVal "Default" ≤ fixT2.model_output :=
  (closed_lower_bound_threshold fixVal fixTest "Default" fixResults fix_partition fixT2
    (by decide) (by decide)).1

/-- C5: A duplicated subject id within the requested hue makes the read raise
DuplicateSubjectError, in both positions of the two-file pipeline, with no
partial result (the pipeline returns the error and nothing else). -/
theorem duplicate_subject_always_raises (val_rows test_rows dup_rows : List CsvRow)
    (hue : String)
    (hdup : ¬((dup_rows.filter (fun r => decide (r.hue = hue))).map
        (fun r => r.subject)).Nodup) :
    read_csv_and_filter_hue dup_rows hue = .error .duplicateSubject
    ∧ get_correct_and_misclassified_examples dup_rows test_rows hue =
        .error .duplicateSubject
    ∧ ((∃ df, read_csv_and_filter_hue val_rows hue = .ok df) →
        get_correct_and_misclassified_examples val_rows dup_rows hue =
          .error .duplicateSubject) := by
  have h1 : read_csv_and_filter_hue dup_rows hue = .error .duplicateSubject := by
    simp only [read_csv_and_filter_hue]
    rw [if_neg hdup]
  refine ⟨h1, ?_, ?_⟩
  · unfold get_correct_and_misclassified_examples
    rw [h1]
  · rintro ⟨df, hv⟩
    unfold get_correct_and_misclassified_examples
    rw [hv]
    simp only [h1]

/-- Witness for C5: a file with a duplicated Default-hue subject makes the
pipeline fail in either position. -/
theorem duplicate_subject_always_raises_witness :
    get_correct_and_misclassified_examples fixDup fixTest "Default" =
      .error .duplicateSubject
    ∧ get_correct_and_misclassified_examples fixVal fixDup "Default" =
        .error .duplicateSubject := by
  have h := duplicate_subject_always_raises fixVal fixTest fixDup "Default" (by decide)
  exact ⟨h.2.1, h.2.2 ⟨[fixV1, fixV2], by decide⟩⟩

/-- C8: A batch that is not a dictionary is rejected by
transfer_batch_to_device with the malformed-batch error (the ValueError of the
source), before anything is transferred: the Except result carries no partial
transfer. -/
theorem non_dict_batch_malformed (v : PyVal) (device : ℤ) :
    transfer_batch_to_device (.other v) device = .error .malformedBatch := rfl

/-- C10: A dict batch whose items entry is an empty list makes
transfer_batch_to_device raise IndexError (items[0] in the type test), which
is neither the generic fallback nor the malformed-batch error; and the
transfer can only succeed when the items entry is absent, None, not a list, or
a non-empty list, i.e. never when it is the empty list. -/
theorem empty_items_index_error (entries : List (String × PyVal)) (device : ℤ) :
    transfer_batch_to_device (.dict [("items", .list [])]) device = .error .indexError
    ∧ ((∃ out, transfer_batch_to_device (.dict entries) device = .ok out) →
        ¬dictGet entries "items" = some (.list [])) := by
  constructor
  · rfl
  · rintro ⟨out, hout⟩ hitems
    unfold transfer_batch_to_device at hout
    simp [hitems, isSequenceItems] at hout

/-- Witness for C10: the empty-items batch raises IndexError, while the empty
dict transfers successfully and indeed has no items entry. -/
theorem empty_items_index_error_witness :
    transfer_batch_to_device (.dict [("items", .list [])]) 0 = .error .indexError
    ∧ ¬dictGet ([] : List (String × PyVal)) "items" = some (.list []) :=
  ⟨(empty_items_index_error [] 0).1,
   (empty_items_index_error [] 0).2 ⟨.dict [], rfl⟩⟩

/-- The validation fixture as a LabelsAndPredictions view (hue already
filtered). -/
def fixValM : LabelsAndPredictions := ⟨["v1", "v2"], [1, 0], [3, 1]⟩

/-- The test fixture as a LabelsAndPredictions view. -/
def fixTestM : LabelsAndPredictions :=
  ⟨["t0", "t1", "t2", "t3", "t4", "t5"], [1, 1, 1, 1, 0, 0], [5, 4, 3, 2, 0, 3]⟩

/-- A degenerate test split containing a single class. -/
def fixDegTestM : LabelsAndPredictions := ⟨["x"], [1], [2]⟩

/-- Evaluation of the Youden threshold on the validation fixture. -/
theorem fixValM_threshold : chooseThreshold fixValM.labels fixValM.model_outputs = 3 := by
  norm_num [fixValM, chooseThreshold, roc_curve, distinctScoresDesc, distinctVals,
    tpsCount, fpsCount, get_optimal_idx, argmaxFirst, maxList, List.insertionSort,
    List.orderedInsert, List.countP_cons, List.countP_nil, List.zip, List.zipWith,
    List.filter_cons, List.getD_cons_zero, List.getD_cons_succ]

/-- C4: For a test split with fewer than two distinct label values, AUC_ROC
and AUC_PR come back as the well-defined value NaN inside a successful result
(not an error), while Accuracy, FalsePositiveRate and FalseNegativeRate are
computed by counting against the threshold with no NaN guard, for degenerate
and non-degenerate splits alike. -/
theorem degenerate_class_nan_guard (valM testM : LabelsAndPredictions) (t : ℚ)
    (ht : ¬t = 0) :
    ((distinctVals testM.labels).length < 2 →
      get_metric valM testM .AUC_ROC (some t) = .ok .nan ∧
      get_metric valM testM .AUC_PR (some t) = .ok .nan)
    ∧ (¬(distinctVals testM.labels).length < 2 →
        get_metric valM testM .AUC_ROC (some t) =
          .ok (.val (roc_auc_score testM.labels testM.model_outputs)))
    ∧ get_metric valM testM .Accuracy (some t) =
        .ok (.val (binary_classification_accuracy testM.model_outputs testM.labels t))
    ∧ get_metric valM testM .FalsePositiveRate (some t) =
        .ok (.val (1 - recall_score testM.labels (predsAt t testM.model_outputs) 0))
    ∧ get_metric valM testM .FalseNegativeRate (some t) =
        .ok (.val (1 - recall_score testM.labels (predsAt t testM.model_outputs) 1)) := by
  refine ⟨fun hdeg => ⟨?_, ?_⟩, fun hdeg => ?_, ?_, ?_, ?_⟩ <;>
    simp [get_metric, isFalsy, ht, *]

/-- Witness for C4 on a single-class test split. -/
theorem degenerate_class_nan_guard_witness :
    get_metric fixValM fixDegTestM .AUC_ROC (some 2) = .ok .nan
    ∧ get_metric fixValM fixDegTestM .Accuracy (some 2) =
        .ok (.val (binary_classification_accuracy fixDegTestM.model_outputs
          fixDegTestM.labels 2)) := by
  have h := degenerate_class_nan_guard fixValM fixDegTestM 2 (by norm_num)
  exact ⟨(h.1 (by decide)).1, h.2.2.1⟩

/-- C9: The threshold guard in get_metric is a truthiness test, not a None
check: a supplied threshold of 0.0 is treated as absent and the Youden-optimal
threshold is recomputed from the validation split, whereas every nonzero
supplied threshold is used as given. -/
theorem falsy_threshold_guard (valM testM : LabelsAndPredictions)
    (h0 : ¬chooseThreshold valM.labels valM.model_outputs = 0) (q : ℚ) (hq : ¬q = 0) :
    get_metric valM testM .OptimalThreshold (some 0) =
      get_metric valM testM .OptimalThreshold none
    ∧ get_metric valM testM .OptimalThreshold none =
        .ok (.val (chooseThreshold valM.labels valM.model_outputs))
    ∧ get_metric valM testM .OptimalThreshold (some q) = .ok (.val q) := by
  refine ⟨?_, ?_, ?_⟩
  · simp [get_metric, isFalsy, chooseThreshold, hq]
  · simp [get_metric, isFalsy, chooseThreshold]
    simp_all [chooseThreshold]
  · simp [get_metric, isFalsy, hq]

/-- Witness for C9 on the validation fixture, whose recomputed threshold
is 3. -/
theorem falsy_threshold_guard_witness :
    get_metric fixValM fixTestM .OptimalThreshold (some 0) =
      get_metric fixValM fixTestM .OptimalThreshold none
    ∧ get_metric fixValM fixTestM .OptimalThreshold (some 2) = .ok (.val 2) := by
  have h := falsy_threshold_guard fixValM fixTestM
    (by rw [fixValM_threshold]; norm_num) 2 (by norm_num)
  exact ⟨h.1, h.2.2⟩

/-- Every entry of a list is bounded by maxList. -/
theorem le_maxList : ∀ l : List ℚ, ∀ j < l.length, l.getD j 0 ≤ maxList l
  | [x], j, hj => by
    have hj0 : j = 0 := by simp at hj; omega
    subst hj0
    simp [maxList]
  | x :: y :: t, 0, _ => by
    simp only [List.getD_cons_zero, maxList]
    exact le_max_left _ _
  | x :: y :: t, j + 1, hj => by
    simp only [List.getD_cons_succ, maxList]
    exact le_trans (le_maxList (y :: t) j (by simpa using hj)) (le_max_right _ _)

/-- argmaxFirst indexes inside a nonempty list. -/
theorem argmaxFirst_lt_length : ∀ l : List ℚ, l ≠ [] → argmaxFirst l < l.length
  | [x], _ => by simp [argmaxFirst]
  | x :: y :: t, _ => by
    by_cases h : maxList (y :: t) ≤ x
    · simp [argmaxFirst, h]
    · have := argmaxFirst_lt_length (y :: t) (by simp)
      simp only [argmaxFirst, if_neg h]
      simpa using Nat.succ_lt_succ this

/-- The entry at argmaxFirst is the maximum. -/
theorem getD_argmaxFirst : ∀ l : List ℚ, l ≠ [] → l.getD (argmaxFirst l) 0 = maxList l
  | [x], _ => by simp [argmaxFirst, maxList]
  | x :: y :: t, _ => by
    by_cases h : maxList (y :: t) ≤ x
    · simp [argmaxFirst, maxList, h, max_eq_left]
    · have ih := getD_argmaxFirst (y :: t) (by simp)
      push_neg at h
      simp only [argmaxFirst, if_neg (not_le.mpr h), List.getD_cons_succ, maxList]
      rw [ih, max_eq_right (le_of_lt h)]

/-- Entries strictly before argmaxFirst are strictly below the maximum:
argmaxFirst takes the first occurrence. -/
theorem lt_maxList_before_argmaxFirst :
    ∀ l : List ℚ, ∀ j < argmaxFirst l, l.getD j 0 < maxList l
  | [], j, hj => by simp [argmaxFirst] at hj
  | [x], j, hj => by simp [argmaxFirst] at hj
  | x :: y :: t, j, hj => by
    by_cases h : maxList (y :: t) ≤ x
    · simp [argmaxFirst, h] at hj
    · push_neg at h
      simp only [argmaxFirst, if_neg (not_le.mpr h)] at hj
      have hmax : maxList (x :: y :: t) = maxList (y :: t) := by
        simp only [maxList]
        exact max_eq_right (le_of_lt h)
      rw [hmax]
      match j, hj with
      | 0, _ => simpa using h
      | j + 1, hj =>
        simpa only [List.getD_cons_succ] using
          lt_maxList_before_argmaxFirst (y :: t) j (Nat.lt_of_succ_lt_succ hj)

/-- The Youden statistic (true_positive_rate minus false_positive_rate) at
each point of the ROC curve of the given labels and scores; get_optimal_idx
maximizes exactly this list. -/
def youdenList (labels scores : List ℚ) : List ℚ :=
  ((roc_curve labels scores).2.1).zipWith (fun a b => a - b) (roc_curve labels scores).1

/-- C2: With no optional threshold supplied, get_metric derives the decision
threshold from the validation ROC curve at the Youden-optimal point: the
threshold at the first index maximizing true_positive_rate minus
false_positive_rate (first occurrence wins ties in the threshold-descending
curve order), and this derived threshold, not 0.5, is the one applied to the
test split by the thresholded metrics. -/
theorem youden_threshold_selection (valM testM : LabelsAndPredictions)
    (h0 : ¬chooseThreshold valM.labels valM.model_outputs = 0) :
    get_metric valM testM .OptimalThreshold none =
      .ok (.val (chooseThreshold valM.labels valM.model_outputs))
    ∧ chooseThreshold valM.labels valM.model_outputs =
        (roc_curve valM.labels valM.model_outputs).2.2.getD
          (argmaxFirst (youdenList valM.labels valM.model_outputs)) 0
    ∧ (∀ j < (youdenList valM.labels valM.model_outputs).length,
        (youdenList valM.labels valM.model_outputs).getD j 0 ≤
          (youdenList valM.labels valM.model_outputs).getD
            (argmaxFirst (youdenList valM.labels valM.model_outputs)) 0)
    ∧ (∀ j < argmaxFirst (youdenList valM.labels valM.model_outputs),
        (youdenList valM.labels valM.model_outputs).getD j 0 <
          (youdenList valM.labels valM.model_outputs).getD
            (argmaxFirst (youdenList valM.labels valM.model_outputs)) 0)
    ∧ get_metric valM testM .Accuracy none =
        get_metric valM testM .Accuracy
          (some (chooseThreshold valM.labels valM.model_outputs))
    ∧ get_metric valM testM .FalsePositiveRate none =
        get_metric valM testM .FalsePositiveRate
          (some (chooseThreshold valM.labels valM.model_outputs))
    ∧ get_metric valM testM .FalseNegativeRate none =
        get_metric valM testM .FalseNegativeRate
          (some (chooseThreshold valM.labels valM.model_outputs)) := by
  refine ⟨?_, rfl, ?_, ?_, ?_, ?_, ?_⟩
  · simp [get_metric, isFalsy, chooseThreshold]
    simp_all [chooseThreshold]
  · intro j hj
    have hne : youdenList valM.labels valM.model_outputs ≠ [] :=
      List.ne_nil_of_length_pos (Nat.lt_of_le_of_lt (Nat.zero_le j) hj)
    rw [getD_argmaxFirst _ hne]
    exact le_maxList _ j hj
  · intro j hj
    by_cases hne : youdenList valM.labels valM.model_outputs = []
    · rw [hne] at hj
      simp [argmaxFirst] at hj
    · rw [getD_argmaxFirst _ hne]
      exact lt_maxList_before_argmaxFirst _ j hj
  · simp [get_metric, isFalsy, chooseThreshold]
  · simp [get_metric, isFalsy, chooseThreshold]
  · simp [get_metric, isFalsy, chooseThreshold]

/-- Witness for C2 on the validation fixture (derived threshold 3). -/
theorem youden_threshold_selection_witness :
    get_metric fixValM fixTestM .OptimalThreshold none =
      .ok (.val (chooseThreshold fixValM.labels fixValM.model_outputs)) :=
  (youden_threshold_selection fixValM fixTestM
    (by rw [fixValM_threshold]; norm_num)).1

/-- pandas head keeps the whole list when k is at least its length. -/
theorem headPd_all {α : Type} (k : ℤ) (l : List α) (h : (l.length : ℤ) ≤ k) :
    headPd k l = l := by
  unfold headPd
  rw [if_pos (le_trans (Int.natCast_nonneg l.length) h)]
  exact List.take_of_length_le (by omega)

/-- pandas head with k = 0 is empty. -/
theorem headPd_zero {α : Type} (l : List α) : headPd 0 l = [] := by
  simp [headPd]

/-- A sorted-then-headed list is unchanged by sorting again. -/
theorem sorted_headPd {α : Type} {r : α → α → Prop} [DecidableRel r] [IsTotal α r]
    [IsTrans α r] (k : ℤ) (l : List α) :
    (headPd k (l.insertionSort r)).insertionSort r = headPd k (l.insertionSort r) := by
  apply List.Sorted.insertionSort_eq
  have hs := List.sorted_insertionSort r l
  unfold headPd
  split
  · exact List.Pairwise.sublist (List.take_sublist _ _) hs
  · exact List.Pairwise.sublist (List.take_sublist _ _) hs

/-- Heading twice with the same nonnegative k equals heading once. -/
theorem headPd_headPd {α : Type} (k : ℤ) (hk : 0 ≤ k) (l : List α) :
    headPd k (headPd k l) = headPd k l := by
  simp only [headPd, if_pos hk]
  simp [List.take_take]

/-- Sorting and heading twice with the same nonnegative k equals doing it
once. -/
theorem headPd_sort_idem {α : Type} {r : α → α → Prop} [DecidableRel r] [IsTotal α r]
    [IsTrans α r] (k : ℤ) (hk : 0 ≤ k) (l : List α) :
    headPd k ((headPd k (l.insertionSort r)).insertionSort r) =
      headPd k (l.insertionSort r) := by
  rw [sorted_headPd, headPd_headPd k hk]

/-- Heads with nonnegative increasing cutoffs are prefixes of one another. -/
theorem headPd_prefixMono {α : Type} (kp k : ℤ) (h0 : 0 ≤ kp) (hk : kp ≤ k) (l : List α) :
    headPd kp l <+: headPd k l := by
  unfold headPd
  rw [if_pos h0, if_pos (le_trans h0 hk)]
  have hle : kp.toNat ≤ k.toNat := by omega
  have : l.take kp.toNat = (l.take k.toNat).take kp.toNat := by
    rw [List.take_take, min_eq_left hle]
  rw [this]
  exact List.take_prefix _ _

/-- With a successful partition, ranking returns exactly the sorted and headed
categories. -/
theorem rank_ok_elim {val_rows test_rows : List CsvRow} {hue : String} {k : ℤ}
    {res ranked : Results}
    (hres : get_correct_and_misclassified_examples val_rows test_rows hue = .ok res)
    (hrank : get_k_best_and_worst_performing val_rows test_rows k hue = .ok ranked) :
    ranked = sort_and_take k res := by
  unfold get_k_best_and_worst_performing at hrank
  rw [hres] at hrank
  exact ((Except.ok.injEq _ _).mp hrank).symm

/-- C6 counterexample: on the fixture files with k = -1, the ranked
true-positive table is the two best-scoring of the three true positives
(pandas head with a negative argument keeps all but the last rows), not the
empty table the claim asserts for k below 0. -/
theorem rank_negative_k_counterexample :
    get_k_best_and_worst_performing fixVal fixTest (-1) "Default" =
      .ok ⟨[fixT0, fixT1], [], [], []⟩
    ∧ ([fixT0, fixT1] : List CsvRow) ≠ [] := by
  constructor
  · unfold get_k_best_and_worst_performing
    rw [fix_partition]
    decide
  · decide

/-- pandas head with a negative cutoff keeps all but the last |k| rows. -/
theorem headPd_neg {α : Type} (k : ℤ) (hk : k < 0) (l : List α) :
    headPd k l = l.take (((l.length : ℤ) + k).toNat) := by
  unfold headPd
  rw [if_neg (by omega)]

/-- C6 amended: when k is at least a category size the ranked category is that
whole category in the sorted order (in particular a permutation of it); k = 0
yields empty tables; a negative k yields, for each of the four categories, all
but the last |k| rows of the sorted category; no value of k turns a successful
partition into an error. -/
theorem rank_k_clamping (val_rows test_rows : List CsvRow) (hue : String) (k : ℤ)
    (res ranked : Results)
    (hres : get_correct_and_misclassified_examples val_rows test_rows hue = .ok res)
    (hrank : get_k_best_and_worst_performing val_rows test_rows k hue = .ok ranked) :
    ((res.true_positives.length : ℤ) ≤ k →
        ranked.true_positives = res.true_positives.insertionSort outputDescOrder ∧
          ranked.true_positives.Perm res.true_positives)
    ∧ ((res.false_positives.length : ℤ) ≤ k →
        ranked.false_positives = res.false_positives.insertionSort outputDescOrder ∧
          ranked.false_positives.Perm res.false_positives)
    ∧ ((res.true_negatives.length : ℤ) ≤ k →
        ranked.true_negatives = res.true_negatives.insertionSort outputAscOrder ∧
          ranked.true_negatives.Perm res.true_negatives)
    ∧ ((res.false_negatives.length : ℤ) ≤ k →
        ranked.false_negatives = res.false_negatives.insertionSort outputAscOrder ∧
          ranked.false_negatives.Perm res.false_negatives)
    ∧ (k = 0 → ranked = ⟨[], [], [], []⟩)
    ∧ (k < 0 →
        (ranked.true_positives =
          (res.true_positives.insertionSort outputDescOrder).take
            (((res.true_positives.length : ℤ) + k).toNat)) ∧
        (ranked.false_positives =
          (res.false_positives.insertionSort outputDescOrder).take
            (((res.false_positives.length : ℤ) + k).toNat)) ∧
        (ranked.true_negatives =
          (res.true_negatives.insertionSort outputAscOrder).take
            (((res.true_negatives.length : ℤ) + k).toNat)) ∧
        (ranked.false_negatives =
          (res.false_negatives.insertionSort outputAscOrder).take
            (((res.false_negatives.length : ℤ) + k).toNat)))
    ∧ (∀ k2 : ℤ, ∃ ranked2,
        get_k_best_and_worst_performing val_rows test_rows k2 hue = .ok ranked2) := by
  have hr := rank_ok_elim hres hrank
  subst hr
  refine ⟨?_, ?_, ?_, ?_, ?_, ?_, ?_⟩
  · intro hk
    refine ⟨headPd_all k _ (by simpa using hk), ?_⟩
    show (headPd k (res.true_positives.insertionSort outputDescOrder)).Perm _
    rw [headPd_all k _ (by simpa using hk)]
    exact List.perm_insertionSort _ _
  · intro hk
    refine ⟨headPd_all k _ (by simpa using hk), ?_⟩
    show (headPd k (res.false_positives.insertionSort outputDescOrder)).Perm _
    rw [headPd_all k _ (by simpa using hk)]
    exact List.perm_insertionSort _ _
  · intro hk
    refine ⟨headPd_all k _ (by simpa using hk), ?_⟩
    show (headPd k (res.true_negatives.insertionSort outputAscOrder)).Perm _
    rw [headPd_all k _ (by simpa using hk)]
    exact List.perm_insertionSort _ _
  · intro hk
    refine ⟨headPd_all k _ (by simpa using hk), ?_⟩
    show (headPd k (res.false_negatives.insertionSort outputAscOrder)).Perm _
    rw [headPd_all k _ (by simpa using hk)]
    exact List.perm_insertionSort _ _
  · intro hk
    subst hk
    show Results.mk _ _ _ _ = _
    rw [headPd_zero, headPd_zero, headPd_zero, headPd_zero]
  · intro hk
    refine ⟨?_, ?_, ?_, ?_⟩ <;>
    · show headPd k _ = _
      rw [headPd_neg k hk]
      simp
  · intro k2
    unfold get_k_best_and_worst_performing
    rw [hres]
    exact ⟨_, rfl⟩

/-- Witness for the amended C6 at the fixtures: k = 5 is above every category
size and returns the sorted whole categories, and k = -1 keeps all but the
last sorted true positive. -/
theorem rank_k_clamping_witness :
    (fixResults.true_positives = fixResults.true_positives.insertionSort outputDescOrder
      ∧ fixResults.true_positives.Perm fixResults.true_positives)
    ∧ ([fixT0, fixT1] : List CsvRow) =
        (fixResults.true_positives.insertionSort outputDescOrder).take
          (((fixResults.true_positives.length : ℤ) + (-1)).toNat) := by
  have hrank : get_k_best_and_worst_performing fixVal fixTest 5 "Default" =
      .ok fixResults := by
    unfold get_k_best_and_worst_performing
    rw [fix_partition]
    decide
  have hrankNeg : get_k_best_and_worst_performing fixVal fixTest (-1) "Default" =
      .ok ⟨[fixT0, fixT1], [], [], []⟩ := by
    unfold get_k_best_and_worst_performing
    rw [fix_partition]
    decide
  constructor
  · exact (rank_k_clamping fixVal fixTest "Default" 5 fixResults fixResults fix_partition
      hrank).1 (by decide)
  · exact ((rank_k_clamping fixVal fixTest "Default" (-1) fixResults
      ⟨[fixT0, fixT1], [], [], []⟩ fix_partition hrankNeg).2.2.2.2.2.1
      (by norm_num)).1

/-- C7 counterexample: on the fixture partition (obtained from a well-formed
CSV pair), ranking with k = -1 is not idempotent (three true positives become
two, then one), and the k = -1 result is not a prefix of the k = 0 result
although -1 is below 0. -/
theorem rank_idempotence_counterexample :
    get_correct_and_misclassified_examples fixVal fixTest "Default" = .ok fixResults
    ∧ sort_and_take (-1) (sort_and_take (-1) fixResults) ≠ sort_and_take (-1) fixResults
    ∧ ¬(sort_and_take (-1) fixResults).true_positives <+:
        (sort_and_take 0 fixResults).true_positives := by
  refine ⟨fix_partition, ?_, ?_⟩
  · decide
  · decide

/-- C7 amended: for every partition and every k at least 0, ranking twice with
the same k equals ranking once; and for 0 ≤ kp ≤ k, each category ranked with
kp is a prefix (same relative order) of the category ranked with k. -/
theorem rank_idempotent_monotone (r : Results) (k kp : ℤ) :
    (0 ≤ k → sort_and_take k (sort_and_take k r) = sort_and_take k r)
    ∧ (0 ≤ kp → kp ≤ k →
        ((sort_and_take kp r).true_positives <+: (sort_and_take k r).true_positives ∧
          (sort_and_take kp r).false_positives <+: (sort_and_take k r).false_positives ∧
          (sort_and_take kp r).true_negatives <+: (sort_and_take k r).true_negatives ∧
          (sort_and_take kp r).false_negatives <+: (sort_and_take k r).false_negatives)) := by
  constructor
  · intro hk
    simp only [sort_and_take]
    rw [headPd_sort_idem k hk, headPd_sort_idem k hk, headPd_sort_idem k hk,
      headPd_sort_idem k hk]
  · intro h0 hk
    exact ⟨headPd_prefixMono kp k h0 hk _, headPd_prefixMono kp k h0 hk _,
      headPd_prefixMono kp k h0 hk _, headPd_prefixMono kp k h0 hk _⟩

/-- Witness for the amended C7 at the fixture partition with kp = 1, k = 2. -/
theorem rank_idempotent_monotone_witness :
    sort_and_take 2 (sort_and_take 2 fixResults) = sort_and_take 2 fixResults
    ∧ (sort_and_take 1 fixResults).true_positives <+:
        (sort_and_take 2 fixResults).true_positives := by
  have h := rank_idempotent_monotone fixResults 2 1
  exact ⟨h.1 (by norm_num), (h.2 (by norm_num) (by norm_num)).1⟩
